import Mathlib

/-!
Verification of the prediction-and-explanation pipeline of the clinical
risk-assessment app (src/程序APP.py).  Machine floats are embedded as
exact rationals (ℚ); the opaque classifier and SHAP backend are
parameters (a record holding the class-label list and the
probability function, and a function returning the explanation output).
-/

namespace SSD

/-- The loaded classifier artifact (`rf_model.pkl`): its class-label list
(`model.classes_.tolist()`) and its single-row probability interface
(`model.predict_proba(features)[0]`). -/
structure RFModel where
  classes : List Int
  predictProba : List ℚ → List ℚ

/-- Outcome of `load_model`: either the model is returned, or
`st.error(...)` followed by `st.stop()` halts the script. -/
inductive LoadResult (α : Type) where
  | ok (m : α) : LoadResult α
  | halted (msg : String) : LoadResult α

/-- The configuration-error message shown at line 44. -/
def cfgErrMsg : String := "模型类别定义异常，请确认训练标签顺序应为[0, 1]！"

/-- Function `load_model` (lines 40-46): load the artifact, halt unless the class
list is exactly `[0, 1]`, otherwise return the model. -/
def load_model (model : RFModel) : LoadResult RFModel :=
  if model.classes ≠ [0, 1] then
    LoadResult.halted cfgErrMsg
  else
    LoadResult.ok model

/-- One entry of `feature_ranges` (lines 52-94): categorical with option
indices and labels, or numerical with min/max/default. -/
inductive FeatureDef where
  | categorical (options : List Int) (labels : List String)
      (display_name : String) : FeatureDef
  | numerical (lo hi default : ℚ) (display_name : String) : FeatureDef
deriving DecidableEq, Repr

/-- The display name of a feature definition. -/
def FeatureDef.display_name : FeatureDef → String
  | .categorical _ _ d => d
  | .numerical _ _ _ d => d

/-- Dict `feature_ranges` (lines 52-94), insertion-ordered: the six
features in canonical order. -/
def feature_ranges : List (String × FeatureDef) :=
  [("Subtype", .categorical [0, 1, 2] ["LumA/B", "HER2+", "TNBC"] "分子亚型"),
   ("NLR", .numerical 0 10 5 "中性粒细胞/淋巴细胞比"),
   ("IL6", .numerical 0 100 5 "白介素6"),
   ("CAR", .numerical 0 5 (1/5) "C反应蛋白/白蛋白"),
   ("VitD", .numerical 0 100 35 "维生素D"),
   ("FT4", .numerical 0 100 15 "游离甲状腺素")]

/-- The dict keys, used as the `sample_data` column labels (line 261). -/
def feature_keys : List String := feature_ranges.map Prod.fst

/-- The display names in canonical order, used for the bar labels
(line 283). -/
def display_names : List String :=
  feature_ranges.map (fun p => p.2.display_name)

/-- The default feature vector assembled by the form widgets: the
selectbox yields its first option (0), the sliders their declared
defaults. -/
def default_feature_values : List ℚ := [0, 5, 5, 1/5, 35, 15]

/-- One prediction's outputs (lines 206-209). -/
structure PredictionResult where
  probability_positive : ℚ
  probability_negative : ℚ
  predicted_class : Nat
  predicted_label : String
deriving DecidableEq, Repr

/-- The try-block body of the prediction stage (lines 202-209): obtain
`proba_array`, raise on a non-binary shape, otherwise scale the two
entries to percentages, threshold at 50 and name the label. -/
def predictStep (model : RFModel) (feature_values : List ℚ) :
    Except String PredictionResult :=
  let proba_array := model.predictProba feature_values
  if proba_array.length ≠ 2 then
    Except.error "模型输出维度异常"
  else
    let probability_positive := proba_array.getD 1 0 * 100
    let probability_negative := proba_array.getD 0 0 * 100
    let predicted_class : Nat := if probability_positive ≥ 50 then 1 else 0
    let predicted_label := if predicted_class = 1 then "高风险" else "低风险"
    Except.ok ⟨probability_positive, probability_negative,
               predicted_class, predicted_label⟩

/-- The SHAP explanation object for the single-row input: its numpy
shape, and for sample 0 the per-feature rows of per-class scores. -/
structure ShapOutput where
  shape : List Nat
  values : List (List ℚ)
deriving DecidableEq, Repr

/-- The shape-dependent read of the SHAP scores (lines 266-269): a
3-dimensional output is read on the `predicted_class` axis
(`shap_values[0, :, predicted_class]`), anything else on the fixed
index-1 axis (`shap_values[0, :, 1]`). -/
def getShapRow (sv : ShapOutput) (predicted_class : Nat) : List ℚ :=
  if sv.shape.length = 3 then
    sv.values.map (fun row => row.getD predicted_class 0)
  else
    sv.values.map (fun row => row.getD 1 0)

/-- The display-layer sign inversion (line 271):
`current_shap_values = -current_shap_values`. -/
def flipScores (scores : List ℚ) : List ℚ := scores.map (fun v => -v)

/-- The scores actually displayed: the shape-dependent read followed by
exactly one sign inversion. -/
def current_shap_values (sv : ShapOutput) (predicted_class : Nat) : List ℚ :=
  flipScores (getShapRow sv predicted_class)

/-- Color of a risk-increasing bar (line 278). -/
def riskIncreasingColor : String := "#ff6b6b"

/-- Color of a risk-reducing bar (line 278). -/
def riskReducingColor : String := "#4CAF50"

/-- The color rule of line 278: `'#ff6b6b' if val > 0 else '#4CAF50'`. -/
def barColor (val : ℚ) : String :=
  if val > 0 then riskIncreasingColor else riskReducingColor

/-- The per-bar colors (line 278). -/
def colors (vals : List ℚ) : List String := vals.map barColor

/-- One horizontal bar of the attribution chart (line 279): its y
position, its signed score, its color. -/
structure Bar where
  y : Nat
  value : ℚ
  color : String
deriving DecidableEq, Repr

/-- Bar positions `y_pos = np.arange(len(feature_ranges))` (line 275). -/
def y_pos : List Nat := List.range feature_ranges.length

/-- Chart call `ax.barh(y_pos, current_shap_values, ..., color=colors)` (line 279):
bars paired positionally, top-to-bottom in canonical order. -/
def renderBars (vals : List ℚ) : List Bar :=
  (y_pos.zip (vals.zip (colors vals))).map
    (fun p => { y := p.1, value := p.2.1, color := p.2.2 })

/-- The text labels (lines 282-288): `zip(current_shap_values,
display_names)` pairs each score with its feature's display name, in
canonical order. -/
def barLabels (vals : List ℚ) : List (ℚ × String) :=
  vals.zip display_names

/-- The opaque SHAP backend: `shap.TreeExplainer(model)(sample_data)`
(lines 262-263), which may itself fail. -/
def ShapBackend : Type := List ℚ → Except String ShapOutput

/-- One element rendered on the page by the submission handler. -/
inductive Element where
  | resultCard (pr : PredictionResult) : Element
  | errorMsg (msg : String) : Element
  | shapChart (bars : List Bar) : Element
  | exceptionTrace (msg : String) : Element
deriving DecidableEq, Repr

/-- The submission handler (lines 198-309): run the prediction try-block;
on an exception report it and stop (the SHAP stage is never reached);
on success render the result card, then attempt the SHAP stage — an
exception there leaves the already-rendered card in place and shows the
traceback, success appends the chart. -/
def runSubmission (model : RFModel) (sb : ShapBackend)
    (feature_values : List ℚ) : List Element :=
  match predictStep model feature_values with
  | Except.error e => [Element.errorMsg ("预测过程出现异常：" ++ e)]
  | Except.ok pr =>
      match sb feature_values with
      | Except.error e => [Element.resultCard pr, Element.exceptionTrace e]
      | Except.ok sv =>
          [Element.resultCard pr,
           Element.shapChart (renderBars (current_shap_values sv pr.predicted_class))]

/-- The whole script for one submission: `load_model` at startup
(line 49) halts with only the error message before the form is reached,
otherwise the validated model serves the submission. -/
def startServing (raw : RFModel) (sb : ShapBackend)
    (feature_values : List ℚ) : List Element :=
  match load_model raw with
  | LoadResult.halted msg => [Element.errorMsg msg]
  | LoadResult.ok m => runSubmission m sb feature_values

/-- The `st.cache_resource` state: the classifier loaded at most once per
process. -/
structure SessionState where
  cachedModel : Option RFModel

/-- One submission against the process-wide cache: reuse the cached
model when present, otherwise load (and cache) the artifact. -/
def runSubmissionS (raw : RFModel) (sb : ShapBackend)
    (feature_values : List ℚ) (st : SessionState) :
    List Element × SessionState :=
  let m := st.cachedModel.getD raw
  (runSubmission m sb feature_values, { cachedModel := some m })

/-- A concrete demonstration classifier used to instantiate witnesses:
classes `[0, 1]`, constant probability output `[1/2, 1/2]`. -/
def demoModel : RFModel :=
  { classes := [0, 1], predictProba := fun _ => [1/2, 1/2] }

/-- A concrete misconfigured classifier with reversed class labels. -/
def badModel : RFModel :=
  { classes := [1, 0], predictProba := fun _ => [1/2, 1/2] }

/-- A concrete classifier returning three probabilities (a corrupted
artifact). -/
def threeClassModel : RFModel :=
  { classes := [0, 1], predictProba := fun _ => [1, 0, 0] }

/-- A concrete 3-dimensional SHAP output for the six features. -/
def demoShap : ShapOutput :=
  { shape := [1, 6, 2],
    values := [[1, -1], [2, -2], [3, -3], [-1, 1], [-2, 2], [-3, 3]] }

/-- A SHAP backend that always returns `demoShap`. -/
def demoBackend : ShapBackend := fun _ => Except.ok demoShap

/-- A SHAP backend that always raises. -/
def failingBackend : ShapBackend := fun _ => Except.error "shap failure"

/- ------------------------------------------------------------------ -/
/- Theorems                                                            -/
/- ------------------------------------------------------------------ -/

/-- Helper: `predictStep` succeeds exactly on a binary probability output, and
then determines every field of the result. -/
theorem predictStep_ok_iff (m : RFModel) (v : List ℚ) (pr : PredictionResult) :
    predictStep m v = Except.ok pr ↔
      ((m.predictProba v).length = 2 ∧
       pr = ⟨(m.predictProba v).getD 1 0 * 100,
             (m.predictProba v).getD 0 0 * 100,
             if (m.predictProba v).getD 1 0 * 100 ≥ 50 then 1 else 0,
             if (if (m.predictProba v).getD 1 0 * 100 ≥ 50 then (1 : Nat) else 0) = 1
             then "高风险" else "低风险"⟩) := by
  unfold predictStep
  by_cases hlen : (m.predictProba v).length = 2 <;>
    simp [hlen, eq_comm]

/-- C1: a produced prediction has class 1 exactly when the positive
percentage is at least 50, and the boundary value 50 itself yields
class 1. -/
theorem threshold_policy (m : RFModel) (v : List ℚ) (pr : PredictionResult)
    (h : predictStep m v = Except.ok pr) :
    (pr.predicted_class = 1 ↔ 50 ≤ pr.probability_positive) ∧
    (pr.probability_positive = 50 → pr.predicted_class = 1) := by
  obtain ⟨-, hpr⟩ := (predictStep_ok_iff m v pr).mp h
  subst hpr
  by_cases hc : (50 : ℚ) ≤ (m.predictProba v).getD 1 0 * 100 <;>
    simp [hc] <;>
    exact fun h50 => le_of_eq h50.symm

/-- C1 witness: the demonstration model at the default inputs sits
exactly on the 50 boundary and resolves to class 1. -/
theorem threshold_policy_witness :
    let pr : PredictionResult := ⟨50, 50, 1, "高风险"⟩
    (pr.predicted_class = 1 ↔ 50 ≤ pr.probability_positive) ∧
    (pr.probability_positive = 50 → pr.predicted_class = 1) :=
  threshold_policy demoModel default_feature_values _
    (by simp [predictStep, demoModel]; norm_num)

/-- C2: `load_model` returns the model exactly when its class-label list
is `[0, 1]` in that order; any other list yields the configuration-error
halt, and the whole script then renders only that error — no prediction
is ever attempted. -/
theorem class_label_validation (m : RFModel) (sb : ShapBackend) (v : List ℚ) :
    (load_model m = LoadResult.ok m ↔ m.classes = [0, 1]) ∧
    (m.classes ≠ [0, 1] →
      load_model m = LoadResult.halted cfgErrMsg ∧
      ∀ pr, Element.resultCard pr ∉ startServing m sb v) := by
  constructor
  · unfold load_model
    by_cases hc : m.classes = [0, 1] <;> simp [hc]
  · intro hne
    have hl : load_model m = LoadResult.halted cfgErrMsg := by
      unfold load_model; simp [hne]
    refine ⟨hl, fun pr => ?_⟩
    unfold startServing
    rw [hl]
    simp

/-- C2 witness: the reversed-label classifier `[1, 0]` halts at startup
with the configuration error and never renders a prediction. -/
theorem class_label_validation_witness :
    load_model badModel = LoadResult.halted cfgErrMsg ∧
    ∀ pr, Element.resultCard pr ∉
      startServing badModel demoBackend default_feature_values :=
  (class_label_validation badModel demoBackend default_feature_values).2
    (by decide)

/-- C3: when the probability output is not of length 2, the submission
renders exactly the caught-and-reported error message, and the SHAP
chart (the explanation stage) is never reached. -/
theorem shape_error_aborts (m : RFModel) (sb : ShapBackend) (v : List ℚ)
    (h : (m.predictProba v).length ≠ 2) :
    runSubmission m sb v =
      [Element.errorMsg ("预测过程出现异常：" ++ "模型输出维度异常")] ∧
    ∀ bars, Element.shapChart bars ∉ runSubmission m sb v := by
  have hp : predictStep m v = Except.error "模型输出维度异常" := by
    unfold predictStep; simp [h]
  unfold runSubmission
  rw [hp]
  simp

/-- C3 witness: a three-probability classifier triggers the shape error
and its submission shows only the error message. -/
theorem shape_error_aborts_witness :
    runSubmission threeClassModel demoBackend default_feature_values =
      [Element.errorMsg ("预测过程出现异常：" ++ "模型输出维度异常")] ∧
    ∀ bars, Element.shapChart bars ∉
      runSubmission threeClassModel demoBackend default_feature_values :=
  shape_error_aborts threeClassModel demoBackend default_feature_values
    (by decide)

/-- C4: when the classifier's two probabilities sum to 1, the reported
positive and negative percentages sum exactly to 100. -/
theorem probabilities_sum_100 (m : RFModel) (v : List ℚ)
    (pr : PredictionResult)
    (hok : predictStep m v = Except.ok pr)
    (hsum : (m.predictProba v).getD 0 0 + (m.predictProba v).getD 1 0 = 1) :
    pr.probability_positive + pr.probability_negative = 100 := by
  obtain ⟨-, hpr⟩ := (predictStep_ok_iff m v pr).mp hok
  subst hpr
  simp only []
  linear_combination 100 * hsum

/-- C4 witness: the demonstration model's 50/50 output sums to 100. -/
theorem probabilities_sum_100_witness :
    (PredictionResult.mk 50 50 1 "高风险").probability_positive +
    (PredictionResult.mk 50 50 1 "高风险").probability_negative = 100 :=
  probabilities_sum_100 demoModel default_feature_values _
    (by simp [predictStep, demoModel]; norm_num)
    (by norm_num [demoModel])

/-- Reading an entry of the flipped scores negates the entry read from
the original scores. -/
theorem getD_flipScores (xs : List ℚ) (i : Nat) :
    (flipScores xs).getD i 0 = -(xs.getD i 0) := by
  induction xs generalizing i with
  | nil => simp [flipScores]
  | cons a t ih =>
    cases i with
    | zero => simp [flipScores]
    | succ n => simpa [flipScores] using ih n

/-- Reading an entry of a row-mapped list commutes with the map when the
mapping sends the default row to the default entry. -/
theorem getD_map_rows (g : List ℚ → ℚ) (h0 : g [] = 0)
    (xs : List (List ℚ)) (i : Nat) :
    (xs.map g).getD i 0 = g (xs.getD i []) := by
  induction xs generalizing i with
  | nil => simp [h0]
  | cons a t ih =>
    cases i with
    | zero => simp
    | succ n => simpa using ih n

/-- C5: every displayed score is the backend score negated exactly once,
so a negative backend score is displayed strictly positive and colored
risk-increasing; flipping twice restores the backend scores. -/
theorem sign_flip_display (sv : ShapOutput) (pc : Nat) (i : Nat)
    (hneg : (getShapRow sv pc).getD i 0 < 0) :
    (current_shap_values sv pc).getD i 0 = -((getShapRow sv pc).getD i 0) ∧
    0 < (current_shap_values sv pc).getD i 0 ∧
    barColor ((current_shap_values sv pc).getD i 0) = riskIncreasingColor ∧
    flipScores (flipScores (getShapRow sv pc)) = getShapRow sv pc := by
  have h1 : (current_shap_values sv pc).getD i 0
      = -((getShapRow sv pc).getD i 0) := getD_flipScores _ i
  have h2 : 0 < (current_shap_values sv pc).getD i 0 := by
    rw [h1]; linarith
  refine ⟨h1, h2, ?_, ?_⟩
  · unfold barColor
    rw [if_pos h2]
  · simp [flipScores]

/-- C5 witness: feature 3 of the demonstration SHAP output has backend
score -1 for class 0 and is displayed as +1 with the risk-increasing
color. -/
theorem sign_flip_display_witness :
    (current_shap_values demoShap 0).getD 3 0
      = -((getShapRow demoShap 0).getD 3 0) ∧
    0 < (current_shap_values demoShap 0).getD 3 0 ∧
    barColor ((current_shap_values demoShap 0).getD 3 0)
      = riskIncreasingColor ∧
    flipScores (flipScores (getShapRow demoShap 0)) = getShapRow demoShap 0 :=
  sign_flip_display demoShap 0 3 (by norm_num [getShapRow, demoShap])

/-- A concrete SHAP output whose numpy shape is 2-dimensional. -/
def demoShap2D : ShapOutput :=
  { shape := [6, 2],
    values := [[1, -1], [2, -2], [3, -3], [-1, 1], [-2, 2], [-3, 3]] }

/-- C6: a 3-dimensional SHAP output is read on the predicted-class axis,
while any other shape is read on the fixed index-1 (positive-class)
axis, whatever the predicted class. -/
theorem shape_dependent_axis (sv : ShapOutput) (pc : Nat) (i : Nat) :
    (sv.shape.length = 3 →
      (getShapRow sv pc).getD i 0 = (sv.values.getD i []).getD pc 0) ∧
    (sv.shape.length ≠ 3 →
      (getShapRow sv pc).getD i 0 = (sv.values.getD i []).getD 1 0) := by
  constructor
  · intro h3
    unfold getShapRow
    rw [if_pos h3]
    exact getD_map_rows _ (by simp) sv.values i
  · intro h3
    unfold getShapRow
    rw [if_neg h3]
    exact getD_map_rows _ (by simp) sv.values i

/-- C6 witness: the 3-dimensional output is read on class axis 0 when
the predicted class is 0, the 2-dimensional one on axis 1 even though
the predicted class is 0. -/
theorem shape_dependent_axis_witness :
    ((getShapRow demoShap 0).getD 0 0
        = (demoShap.values.getD 0 []).getD 0 0) ∧
    ((getShapRow demoShap2D 0).getD 0 0
        = (demoShap2D.values.getD 0 []).getD 1 0) :=
  ⟨(shape_dependent_axis demoShap 0 0).1 (by rfl),
   (shape_dependent_axis demoShap2D 0 0).2 (by decide)⟩

/-- The displayed score vector has one entry per backend feature row. -/
theorem current_shap_values_length (sv : ShapOutput) (pc : Nat) :
    (current_shap_values sv pc).length = sv.values.length := by
  unfold current_shap_values flipScores getShapRow
  split <;> simp

/-- A list of length six is literally six entries. -/
theorem exists_six (vals : List ℚ) (h : vals.length = 6) :
    ∃ a b c d e f, vals = [a, b, c, d, e, f] := by
  obtain _ | ⟨a, _ | ⟨b, _ | ⟨c, _ | ⟨d, _ | ⟨e, _ | ⟨f, _ | ⟨g, t⟩⟩⟩⟩⟩⟩⟩ := vals <;>
    first
      | exact ⟨a, b, c, d, e, f, rfl⟩
      | simp at h

/-- C7: when the backend returns one row per canonical feature, the
displayed attribution vector has exactly 6 entries, the bars occupy y
positions 0..5 top-to-bottom in canonical order carrying the scores
positionally, and the labels pair the scores with the canonical display
names — nothing is sorted by magnitude. -/
theorem canonical_bar_order (sv : ShapOutput) (pc : Nat)
    (hfeat : sv.values.length = feature_ranges.length) :
    (current_shap_values sv pc).length = 6 ∧
    (renderBars (current_shap_values sv pc)).map Bar.y = List.range 6 ∧
    (renderBars (current_shap_values sv pc)).map Bar.value
      = current_shap_values sv pc ∧
    (barLabels (current_shap_values sv pc)).map Prod.snd = display_names := by
  have hlen : (current_shap_values sv pc).length = 6 := by
    rw [current_shap_values_length, hfeat]
    rfl
  obtain ⟨a, b, c, d, e, f, hv⟩ := exists_six _ hlen
  refine ⟨hlen, ?_, ?_, ?_⟩ <;> rw [hv] <;> rfl

/-- C7 witness: the demonstration SHAP output yields six bars in
canonical order. -/
theorem canonical_bar_order_witness :
    (current_shap_values demoShap 0).length = 6 ∧
    (renderBars (current_shap_values demoShap 0)).map Bar.y
      = List.range 6 ∧
    (renderBars (current_shap_values demoShap 0)).map Bar.value
      = current_shap_values demoShap 0 ∧
    (barLabels (current_shap_values demoShap 0)).map Prod.snd
      = display_names :=
  canonical_bar_order demoShap 0 (by rfl)

/-- C8: resubmitting the identical feature vector against the cached
model renders the identical output — the prediction card and the
attribution chart are byte-for-byte the same, since no state carries
between submissions. -/
theorem stateless_determinism (raw : RFModel) (sb : ShapBackend)
    (v : List ℚ) (s0 : SessionState) :
    (runSubmissionS raw sb v ((runSubmissionS raw sb v s0).2)).1
      = (runSubmissionS raw sb v s0).1 := by
  cases s0 with
  | mk cached => cases cached <;> rfl

/-- C9: once the prediction succeeds, its result card is the first
element rendered and stays rendered whatever the explanation stage
does; an explanation failure merely appends the traceback after the
still-displayed card. -/
theorem explanation_soft_failure (m : RFModel) (sb : ShapBackend)
    (v : List ℚ) (pr : PredictionResult)
    (h : predictStep m v = Except.ok pr) :
    (runSubmission m sb v).head? = some (Element.resultCard pr) ∧
    Element.resultCard pr ∈ runSubmission m sb v ∧
    (∀ e, sb v = Except.error e →
      runSubmission m sb v
        = [Element.resultCard pr, Element.exceptionTrace e]) := by
  unfold runSubmission
  rw [h]
  refine ⟨?_, ?_, ?_⟩
  · cases hsb : sb v <;> simp
  · cases hsb : sb v <;> simp
  · intro e hsb
    rw [hsb]

/-- C9 witness: with a failing SHAP backend the 50/50 prediction card is
still rendered first, followed only by the traceback. -/
theorem explanation_soft_failure_witness :
    (runSubmission demoModel failingBackend default_feature_values).head?
      = some (Element.resultCard ⟨50, 50, 1, "高风险"⟩) ∧
    Element.resultCard ⟨50, 50, 1, "高风险"⟩ ∈
      runSubmission demoModel failingBackend default_feature_values ∧
    (∀ e, failingBackend default_feature_values = Except.error e →
      runSubmission demoModel failingBackend default_feature_values
        = [Element.resultCard ⟨50, 50, 1, "高风险"⟩,
           Element.exceptionTrace e]) :=
  explanation_soft_failure demoModel failingBackend default_feature_values _
    (by simp [predictStep, demoModel]; norm_num)

/-- C10: a displayed score of exactly 0 receives the risk-reducing
color, because the risk-increasing color is assigned exactly to the
strictly positive scores. -/
theorem zero_score_color :
    barColor 0 = riskReducingColor ∧
    ∀ v : ℚ, barColor v = riskIncreasingColor ↔ 0 < v := by
  constructor
  · norm_num [barColor]
  · intro v
    unfold barColor
    by_cases hv : (0 : ℚ) < v
    · simp [hv]
    · simp only [gt_iff_lt, if_neg hv]
      constructor
      · intro hcol
        exact absurd hcol (by decide)
      · intro hlt
        exact absurd hlt hv

end SSD
